import Mathlib

/-!
Shallow embedding of the lox-rust tree-walking interpreter
(src/environment.rs, src/intrepreter.rs, src/token.rs).

Rust `f64` numbers are modelled as `ℚ` (the claims under study never depend
on floating-point rounding, infinities or NaN).  Rust's
`LoxResult<T> = Result<T, LoxErrors>` is modelled as `Except Failure T`,
with an extra `Failure.panic` constructor modelling a Rust `panic!`
(the interpreter calls `.unwrap()` on `Option` values in several places)
and a `Failure.fuelOut` constructor that is an artifact of the fuel bound
used for the possibly non-terminating statement executor.
-/

namespace Lox

/-- Token kinds used by the interpreter (src/token_type.rs, as imported by
src/intrepreter.rs). -/
inductive TokenType where
  | Bang | BangEqual | EqualEqual | Greater | GreaterEqual | Less | LessEqual
  | Minus | Plus | Slash | Star | Or | And | Identifier | Eof
  deriving DecidableEq, Repr

/-- Runtime values.  Modelled from the spec: `value.rs` is not among the
provided sources; the spec gives `Value` as one of `Nil`, `Boolean(bool)`,
`Number(float64)`, `String(text)`, with structural equality.  `f64` is
modelled as `ℚ`. -/
inductive Value where
  | nil
  | boolean (b : Bool)
  | num (n : ℚ)
  | str (s : String)
  deriving DecidableEq, Repr

/-- `Token` from src/token.rs: kind, lexeme, optional literal value,
source line. -/
structure Token where
  type_ : TokenType
  lexeme : String
  literal : Option Value
  line : Nat
  deriving DecidableEq, Repr

/-- Failure outcomes.  `runtimeError` is `LoxErrors::RunTimeException(Error::new(line, message))`;
`panic` models a Rust panic (`.unwrap()` on `None`); `fuelOut` is an embedding
artifact for the fuel-bounded statement executor and corresponds to no
program behaviour. -/
inductive Failure where
  | runtimeError (line : Nat) (message : String)
  | panic
  | fuelOut
  deriving DecidableEq, Repr

/-- One scope's `HashMap<String, Option<Value>>`, as an association list. -/
abbrev Scope : Type := List (String × Option Value)

/-- `HashMap::get`/`contains_key`: the binding of `k`, if present. -/
def Scope.lookup (s : Scope) (k : String) : Option (Option Value) :=
  List.lookup k s

/-- `HashMap::insert`: map `k` to `v`, leaving every other key's binding
unchanged. -/
def Scope.insert (s : Scope) (k : String) (v : Option Value) : Scope :=
  match s with
  | [] => [(k, v)]
  | (k', v') :: rest => if k' = k then (k, v) :: rest else (k', v') :: Scope.insert rest k v

/-- `Environment` from src/environment.rs: a map of bindings plus an optional
enclosing environment (`Option<Rc<RefCell<Environment>>>`).  The interpreter
is single-threaded, so the shared-mutable chain is modelled by value. -/
inductive Environment where
  | mk (values : Scope) (enclosing : Option Environment)

/-- The current scope's bindings. -/
def Environment.values : Environment → Scope
  | .mk values _ => values

/-- The enclosing link. -/
def Environment.enclosing : Environment → Option Environment
  | .mk _ enclosing => enclosing

/-- `Environment::define`: insert or overwrite in the current scope only. -/
def Environment.define (env : Environment) (name : String) (value : Option Value) : Environment :=
  .mk (env.values.insert name value) env.enclosing

/-- `Environment::get` (src/environment.rs lines 20-29): looks `name.lexeme`
up in the current scope's map only; if absent there, returns the
undefined-variable error immediately (the source has no recursion into
`enclosing`). -/
def Environment.get (env : Environment) (name : Token) : Except Failure (Option Value) :=
  match env.values.lookup name.lexeme with
  | some v => .ok v
  | none => .error (.runtimeError name.line ("Undefined variable " ++ name.lexeme ++ " ."))

/-- `Environment::assign` (src/environment.rs lines 31-44): if the current
scope lacks the name, recurse into the enclosing environment (or fail with
the undefined-variable error when there is none); otherwise overwrite the
binding in the current scope. -/
def Environment.assign : Environment → Token → Option Value → Except Failure Environment
  | .mk values enclosing, name, value =>
    if (values.lookup name.lexeme).isSome then
      .ok (.mk (values.insert name.lexeme value) enclosing)
    else
      match enclosing with
      | some enc =>
        match enc.assign name value with
        | .ok enc' => .ok (.mk values (some enc'))
        | .error e => .error e
      | none => .error (.runtimeError name.line ("Undefined variable " ++ name.lexeme ++ " ."))

/-- The chain of scopes, innermost first. -/
def Environment.scopes : Environment → List Scope
  | .mk values enclosing =>
    values :: (match enclosing with
      | some enc => enc.scopes
      | none => [])

/-- Whether some scope in the chain binds `n`. -/
def Environment.containsAnywhere : Environment → String → Bool
  | .mk values enclosing, n =>
    (values.lookup n).isSome ||
      (match enclosing with
        | some enc => enc.containsAnywhere n
        | none => false)

/-- Expression nodes (shapes fixed by their use in src/intrepreter.rs). -/
inductive Expr where
  | literal (value : Option Value)
  | grouping (expression : Expr)
  | unary (operator : Token) (right : Expr)
  | binary (left : Expr) (operator : Token) (right : Expr)
  | logical (left : Expr) (operator : Token) (right : Expr)
  | variable (name : Token)
  | assign (name : Token) (value : Expr)
  deriving DecidableEq, Repr

/-- Statement nodes (shapes fixed by their use in src/intrepreter.rs). -/
inductive Stmt where
  | expression (expr : Expr)
  | print (expr : Expr)
  | var (name : Token) (initializer : Option Expr)
  | block (statements : List Stmt)
  | ifStmt (condition : Expr) (thenBranch : Stmt) (elseBranch : Option Stmt)
  | whileStmt (condition : Expr) (body : Stmt)

/-- `is_truthy` (src/intrepreter.rs lines 75-81): `Nil` is falsy,
`Boolean(b)` is `b`, and the catch-all arm maps every other value
(numbers, strings) to `false`. -/
def is_truthy (object : Value) : Bool :=
  match object with
  | .nil => false
  | .boolean b => b
  | _ => false

/-- `is_equal` (src/intrepreter.rs lines 83-89): two `None`s are not equal;
otherwise Rust's derived structural equality on `Option<Value>`. -/
def is_equal (a b : Option Value) : Bool :=
  if a.isNone && b.isNone then false else a == b

/-- `check_number_and_operand` (src/intrepreter.rs lines 91-99). -/
def check_number_and_operand (operator : Token) (operand : Value) : Except Failure Unit :=
  match operand with
  | .num _ => .ok ()
  | _ => .error (.runtimeError operator.line "Operand must be a number")

/-- `check_number_operands` (src/intrepreter.rs lines 101-109). -/
def check_number_operands (operator : Token) (left right : Value) : Except Failure Unit :=
  match left, right with
  | .num _, .num _ => .ok ()
  | _, _ => .error (.runtimeError operator.line "Operands must be numbers")

/-- `Value` subtraction.  Modelled from the spec: arithmetic operators are
defined only for `Number`; the non-number case is unreachable behind
`check_number_operands`. -/
def valueSub : Value → Value → Value
  | .num a, .num b => .num (a - b)
  | _, _ => .nil

/-- `Value` division (spec: float division; the ℚ model returns 0 on
division by zero, a difference no claim depends on). -/
def valueDiv : Value → Value → Value
  | .num a, .num b => .num (a / b)
  | _, _ => .nil

/-- `Value` multiplication.  Modelled from the spec, as `valueSub`. -/
def valueMul : Value → Value → Value
  | .num a, .num b => .num (a * b)
  | _, _ => .nil

/-- `Value` addition.  Modelled from the spec: numeric addition for two
numbers, concatenation for two strings; mixed operands are an open question
in the spec and no claim depends on them (modelled as `Nil`). -/
def valueAdd : Value → Value → Value
  | .num a, .num b => .num (a + b)
  | .str a, .str b => .str (a ++ b)
  | _, _ => .nil

/-- `Value` strict order (`PartialOrd`), meaningful for two numbers only;
the non-number case is unreachable behind `check_number_operands`. -/
def valueLt : Value → Value → Bool
  | .num a, .num b => decide (a < b)
  | _, _ => false

/-- `Value` non-strict order, as `valueLt`. -/
def valueLe : Value → Value → Bool
  | .num a, .num b => decide (a ≤ b)
  | _, _ => false

/-- `.unwrap()` on an `Option`: a Rust panic when the value is absent. -/
def unwrapValue (v : Option Value) : Except Failure Value :=
  match v with
  | some value => .ok value
  | none => .error .panic

/-- Expression evaluation (the `VisitorExpr` impl, src/intrepreter.rs
lines 111-203).  Assignment mutates the environment, so the (possibly
updated) environment is returned alongside the result. -/
def evaluate (env : Environment) : Expr → Except Failure (Option Value × Environment)
  | .literal value => .ok (value, env)
  | .grouping expression => evaluate env expression
  | .variable name =>
    match env.get name with
    | .ok v => .ok (v, env)
    | .error e => .error e
  | .assign name value =>
    match evaluate env value with
    | .ok (v, env1) =>
      match env1.assign name v with
      | .ok env2 => .ok (v, env2)
      | .error e => .error e
    | .error e => .error e
  | .unary operator right =>
    match evaluate env right with
    | .ok (r, env1) =>
      match unwrapValue r with
      | .ok rv =>
        match operator.type_ with
        | .Bang => .ok (some (.boolean (!is_truthy rv)), env1)
        | .Minus =>
          match rv with
          | .num n =>
            match check_number_and_operand operator rv with
            | .ok _ => .ok (some (.num (-n)), env1)
            | .error e => .error e
          | _ => .ok (some .nil, env1)
        | _ => .ok (none, env1)
      | .error e => .error e
    | .error e => .error e
  | .binary left operator right =>
    match evaluate env left with
    | .ok (l, env1) =>
      match unwrapValue l with
      | .ok lv =>
        match evaluate env1 right with
        | .ok (r, env2) =>
          match unwrapValue r with
          | .ok rv =>
            match operator.type_ with
            | .Minus =>
              match check_number_operands operator lv rv with
              | .ok _ => .ok (some (valueSub lv rv), env2)
              | .error e => .error e
            | .Slash =>
              match check_number_operands operator lv rv with
              | .ok _ => .ok (some (valueDiv lv rv), env2)
              | .error e => .error e
            | .Star =>
              match check_number_operands operator lv rv with
              | .ok _ => .ok (some (valueMul lv rv), env2)
              | .error e => .error e
            | .Plus => .ok (some (valueAdd lv rv), env2)
            | .Greater =>
              match check_number_operands operator lv rv with
              | .ok _ => .ok (some (.boolean (valueLt rv lv)), env2)
              | .error e => .error e
            | .GreaterEqual =>
              match check_number_operands operator lv rv with
              | .ok _ => .ok (some (.boolean (valueLe rv lv)), env2)
              | .error e => .error e
            | .Less =>
              match check_number_operands operator lv rv with
              | .ok _ => .ok (some (.boolean (valueLt lv rv)), env2)
              | .error e => .error e
            | .LessEqual =>
              match check_number_operands operator lv rv with
              | .ok _ => .ok (some (.boolean (valueLe lv rv)), env2)
              | .error e => .error e
            | .BangEqual => .ok (some (.boolean (!is_equal (some lv) (some rv))), env2)
            | .EqualEqual => .ok (some (.boolean (is_equal (some lv) (some rv))), env2)
            | _ => .error (.runtimeError operator.line "Operands must be two numbers or two string")
          | .error e => .error e
        | .error e => .error e
      | .error e => .error e
    | .error e => .error e
  | .logical left operator right =>
    match evaluate env left with
    | .ok (l, env1) =>
      match l with
      | some lv =>
        if operator.type_ = TokenType.Or ∧ is_truthy lv = true then .ok (some lv, env1)
        else evaluate env1 right
      | none => evaluate env1 right
    | .error e => .error e

/-- Interpreter state: the (shared, root) environment and the text printed
so far; `print` output is recorded as the printed `Value` itself, standing
for its textual rendering. -/
structure InterpState where
  env : Environment
  output : List Value

mutual

/-- Statement execution (the `VisitorStmt` impl, src/intrepreter.rs
lines 213-265).  `repl` is the interpreter's repl flag.  `fuel` bounds the
recursion depth (`while` may loop forever); every recursive call consumes
one unit, and exhaustion yields the embedding-only `Failure.fuelOut`.
`visit_block_stmt` (lines 254-257) passes `self.environment.clone()` — the
same shared environment, not a child — so a block runs its statements in
the current environment. -/
def execute (repl : Bool) (fuel : Nat) (stmt : Stmt) (st : InterpState) :
    Except Failure InterpState :=
  match fuel with
  | 0 => .error .fuelOut
  | f + 1 =>
    match stmt with
    | .expression e =>
      -- source: the repl branch binds the value in an empty `if let` and
      -- does nothing with it; the non-repl branch discards it.
      if repl then
        match evaluate st.env e with
        | .ok (_, env1) => .ok { st with env := env1 }
        | .error err => .error err
      else
        match evaluate st.env e with
        | .ok (_, env1) => .ok { st with env := env1 }
        | .error err => .error err
    | .print e =>
      match evaluate st.env e with
      | .ok (v, env1) =>
        match unwrapValue v with
        | .ok value => .ok { env := env1, output := st.output ++ [value] }
        | .error err => .error err
      | .error err => .error err
    | .var name initializer =>
      match initializer with
      | some init =>
        match evaluate st.env init with
        | .ok (v, env1) => .ok { st with env := env1.define name.lexeme v }
        | .error err => .error err
      | none => .ok { st with env := st.env.define name.lexeme none }
    | .block statements => executeAll repl f statements st
    | .ifStmt condition thenBranch elseBranch =>
      match evaluate st.env condition with
      | .ok (v, env1) =>
        match unwrapValue v with
        | .ok value =>
          if is_truthy value then execute repl f thenBranch { st with env := env1 }
          else
            match elseBranch with
            | some eb => execute repl f eb { st with env := env1 }
            | none => .ok { st with env := env1 }
        | .error err => .error err
      | .error err => .error err
    | .whileStmt condition body =>
      match evaluate st.env condition with
      | .ok (v, env1) =>
        match unwrapValue v with
        | .ok value =>
          if is_truthy value then
            match execute repl f body { st with env := env1 } with
            | .ok st1 => execute repl f (.whileStmt condition body) st1
            | .error err => .error err
          else .ok { st with env := env1 }
        | .error err => .error err
      | .error err => .error err

/-- `Intrepreter::intrepret` / `execute_block`: run the statements in order,
stopping at the first failure. -/
def executeAll (repl : Bool) (fuel : Nat) (statements : List Stmt) (st : InterpState) :
    Except Failure InterpState :=
  match fuel with
  | 0 => .error .fuelOut
  | f + 1 =>
    match statements with
    | [] => .ok st
    | s :: rest =>
      match execute repl f s st with
      | .ok st1 => executeAll repl f rest st1
      | .error err => .error err

end

/-- `Intrepreter::intrepret` on a fresh non-repl interpreter
(`Intrepreter::without_repl`): empty root environment, no output yet. -/
def intrepret (fuel : Nat) (statements : List Stmt) : Except Failure InterpState :=
  executeAll false fuel statements { env := .mk [] none, output := [] }

/-- `num x` and nothing else is a number. -/
def Value.isNum : Value → Bool
  | .num _ => true
  | _ => false

/-- Expected result of a type-checked numeric binary operator on two
numbers: arithmetic value for `-`, `/`, `*`, a Boolean for the
comparisons. -/
def numericResult : TokenType → ℚ → ℚ → Option Value
  | .Minus, x, y => some (.num (x - y))
  | .Slash, x, y => some (.num (x / y))
  | .Star, x, y => some (.num (x * y))
  | .Greater, x, y => some (.boolean (decide (y < x)))
  | .GreaterEqual, x, y => some (.boolean (decide (y ≤ x)))
  | .Less, x, y => some (.boolean (decide (x < y)))
  | .LessEqual, x, y => some (.boolean (decide (x ≤ y)))
  | _, _, _ => none

/-- Shared token builder for concrete test inputs. -/
def tok (t : TokenType) (lx : String) (ln : Nat) : Token :=
  { type_ := t, lexeme := lx, literal := none, line := ln }

/-- The end-to-end scenario `var x = 1; { var x = 2; print x; } print x;`. -/
def c2prog : List Stmt :=
  [ .var (tok .Identifier "x" 1) (some (.literal (some (.num 1)))),
    .block
      [ .var (tok .Identifier "x" 2) (some (.literal (some (.num 2)))),
        .print (.variable (tok .Identifier "x" 2)) ],
    .print (.variable (tok .Identifier "x" 3)) ]

section ScopeLemmas

theorem Scope.lookup_insert_self (s : Scope) (k : String) (v : Option Value) :
    (s.insert k v).lookup k = some v := by
  induction s with
  | nil => simp [Scope.insert, Scope.lookup, List.lookup]
  | cons hd tl ih =>
    obtain ⟨k', v'⟩ := hd
    by_cases h : k' = k
    · subst h
      simp [Scope.insert, Scope.lookup, List.lookup]
    · have hb : (k == k') = false := beq_eq_false_iff_ne.mpr (Ne.symm h)
      simp only [Scope.insert, if_neg h]
      simp only [Scope.lookup, List.lookup, hb]
      exact ih

theorem Scope.lookup_insert_ne (s : Scope) (k m : String) (v : Option Value)
    (hm : m ≠ k) : (s.insert k v).lookup m = s.lookup m := by
  have hb : (m == k) = false := beq_eq_false_iff_ne.mpr hm
  induction s with
  | nil => simp [Scope.insert, Scope.lookup, List.lookup, hb]
  | cons hd tl ih =>
    obtain ⟨k', v'⟩ := hd
    by_cases h : k' = k
    · subst h
      simp only [Scope.insert, if_pos rfl]
      simp only [Scope.lookup, List.lookup, hb]
    · simp only [Scope.insert, if_neg h]
      by_cases hmk : (m == k') = true
      · simp only [Scope.lookup, List.lookup, hmk]
      · have hmk' : (m == k') = false := by
          cases hb2 : (m == k') with
          | true => exact absurd hb2 hmk
          | false => rfl
        simp only [Scope.lookup, List.lookup, hmk']
        exact ih

end ScopeLemmas

section AssignLemmas

/-- When no scope in the chain binds the name, `assign` returns the
undefined-variable error with the token's line. -/
theorem assign_not_found : ∀ (env : Environment) (name : Token) (v : Option Value),
    env.containsAnywhere name.lexeme = false →
    env.assign name v
      = .error (.runtimeError name.line ("Undefined variable " ++ name.lexeme ++ " ."))
  | .mk values none, name, v, h => by
    simp only [Environment.containsAnywhere, Bool.or_eq_false_iff] at h
    simp [Environment.assign, h.1]
  | .mk values (some enc), name, v, h => by
    simp only [Environment.containsAnywhere, Bool.or_eq_false_iff] at h
    have ih := assign_not_found enc name v h.2
    simp [Environment.assign, h.1, ih]

/-- When some scope in the chain binds the name, `assign` succeeds and
the resulting chain differs from the original exactly at the innermost
scope that binds the name, and there exactly at that binding. -/
theorem assign_found : ∀ (env : Environment) (name : Token) (v : Option Value),
    env.containsAnywhere name.lexeme = true →
    ∃ env' : Environment, ∃ i : Nat,
      env.assign name v = .ok env' ∧
      env'.scopes.length = env.scopes.length ∧
      (∀ j : Nat, j < i → ∃ s : Scope, env.scopes[j]? = some s ∧ s.lookup name.lexeme = none) ∧
      (∃ s s' : Scope, env.scopes[i]? = some s ∧ (s.lookup name.lexeme).isSome = true ∧
        env'.scopes[i]? = some s' ∧ s'.lookup name.lexeme = some v ∧
        (∀ m, m ≠ name.lexeme → s'.lookup m = s.lookup m)) ∧
      (∀ j : Nat, j ≠ i → env'.scopes[j]? = env.scopes[j]?)
  | .mk values none, name, v, h => by
    have hv : (values.lookup name.lexeme).isSome = true := by
      simpa [Environment.containsAnywhere] using h
    refine ⟨.mk (values.insert name.lexeme v) none, 0, ?_, ?_, ?_, ?_, ?_⟩
    · simp [Environment.assign, hv]
    · simp [Environment.scopes]
    · intro j hj; omega
    · refine ⟨values, values.insert name.lexeme v, ?_, hv, ?_, ?_, ?_⟩
      · simp [Environment.scopes]
      · simp [Environment.scopes]
      · exact Scope.lookup_insert_self values name.lexeme v
      · exact fun m hm => Scope.lookup_insert_ne values name.lexeme m v hm
    · intro j hj
      cases j with
      | zero => exact absurd rfl hj
      | succ j' => simp [Environment.scopes]
  | .mk values (some enc), name, v, h => by
    by_cases hv : (values.lookup name.lexeme).isSome = true
    · refine ⟨.mk (values.insert name.lexeme v) (some enc), 0, ?_, ?_, ?_, ?_, ?_⟩
      · simp [Environment.assign, hv]
      · simp [Environment.scopes]
      · intro j hj; omega
      · refine ⟨values, values.insert name.lexeme v, ?_, hv, ?_, ?_, ?_⟩
        · simp [Environment.scopes]
        · simp [Environment.scopes]
        · exact Scope.lookup_insert_self values name.lexeme v
        · exact fun m hm => Scope.lookup_insert_ne values name.lexeme m v hm
      · intro j hj
        cases j with
        | zero => exact absurd rfl hj
        | succ j' => simp [Environment.scopes]
    · have hnone : values.lookup name.lexeme = none := by
        cases hl : Scope.lookup values name.lexeme with
        | none => rfl
        | some w => exact absurd (by simp [hl]) hv
      have henc : enc.containsAnywhere name.lexeme = true := by
        simp only [Environment.containsAnywhere, Bool.or_eq_true] at h
        rcases h with h | h
        · exact absurd h hv
        · exact h
      obtain ⟨enc', i, hassign, hlen, hbefore, ⟨s, s', hs, hsome, hs', hset, hothers⟩, hrest⟩ :=
        assign_found enc name v henc
      refine ⟨.mk values (some enc'), i + 1, ?_, ?_, ?_, ?_, ?_⟩
      · simp [Environment.assign, hv, hassign]
      · simp [Environment.scopes, hlen]
      · intro j hj
        cases j with
        | zero =>
          refine ⟨values, by simp [Environment.scopes], hnone⟩
        | succ j' =>
          have hb := hbefore j' (by omega)
          simpa [Environment.scopes] using hb
      · refine ⟨s, s', ?_, hsome, ?_, hset, hothers⟩
        · simpa [Environment.scopes] using hs
        · simpa [Environment.scopes] using hs'
      · intro j hj
        cases j with
        | zero => simp [Environment.scopes]
        | succ j' =>
          have hb := hrest j' (by omega)
          simpa [Environment.scopes] using hb

end AssignLemmas

/-- C1: the claim says `Environment::get` walks outward through the
enclosing chain, so a name bound only in an enclosing scope is found from a
nested scope.  The code consults only the innermost scope's map: with `x`
bound to `1` in the enclosing scope and absent from the inner scope, `get`
fails with the undefined-variable error, although `get` directly on the
enclosing scope returns the value. -/
theorem c1_get_ignores_enclosing :
    Environment.get (.mk [] (some (.mk [("x", some (.num 1))] none))) (tok .Identifier "x" 7)
      = .error (.runtimeError 7 "Undefined variable x .") ∧
    Environment.get (.mk [("x", some (.num 1))] none) (tok .Identifier "x" 7)
      = .ok (some (.num 1)) :=
  ⟨rfl, rfl⟩

/-- C2: the claim says a block executes in a fresh child environment, so
`var x = 1; { var x = 2; print x; } print x;` outputs 2 then 1.
`visit_block_stmt` passes the interpreter's own environment to
`execute_block`, so the inner `var x = 2` overwrites the outer binding and
the program outputs 2 then 2. -/
theorem c2_block_shares_environment :
    intrepret 10 c2prog
      = .ok { env := .mk [("x", some (.num 2))] none, output := [.num 2, .num 2] } :=
  rfl

/-- C3: the claim says every Number (including 0 and -1) and every String
(including "") is truthy.  `is_truthy`'s catch-all arm maps every
non-`Boolean` non-`Nil` value to `false`, so numbers and strings are all
falsy; only `Boolean(true)` is truthy. -/
theorem c3_numbers_and_strings_falsy :
    is_truthy .nil = false ∧ is_truthy (.boolean false) = false ∧
    is_truthy (.boolean true) = true ∧
    is_truthy (.num 0) = false ∧ is_truthy (.num (-1)) = false ∧
    is_truthy (.str "") = false ∧ is_truthy (.str "a") = false := by
  decide

/-- C4 counterexample: for `and` with the falsy left operand
`Boolean(false)`, the claim says the result is that left value and the
right operand is never evaluated.  The code evaluates
`false and (x = 1)` to the right operand's value `Number(1)` — not the
left value — and performs the right operand's assignment side effect,
mutating `x` from 0 to 1. -/
theorem c4_and_right_evaluated :
    evaluate (.mk [("x", some (.num 0))] none)
      (.logical (.literal (some (.boolean false))) (tok .And "and" 1)
        (.assign (tok .Identifier "x" 1) (.literal (some (.num 1)))))
      = .ok (some (.num 1), .mk [("x", some (.num 1))] none) ∧
    some (Value.num 1) ≠ some (Value.boolean false) :=
  ⟨rfl, by decide⟩

/-- C4 amended: only `or` short-circuits — when the left operand of `or`
evaluates to a present value that is truthy (per `is_truthy`), the result
is that left value and the right operand is never evaluated; for `and` the
right operand is always evaluated and its result is the result of the
whole expression. -/
theorem c4_logical_or_only_shortcircuit (env env1 : Environment) (l r : Expr)
    (op : Token) (lv : Value)
    (hl : evaluate env l = .ok (some lv, env1)) :
    (op.type_ = TokenType.Or → is_truthy lv = true →
      evaluate env (.logical l op r) = .ok (some lv, env1)) ∧
    (op.type_ = TokenType.And →
      evaluate env (.logical l op r) = evaluate env1 r) := by
  constructor
  · intro hop ht
    simp [evaluate, hl, hop, ht]
  · intro hop
    simp [evaluate, hl, hop]

theorem c4_logical_or_only_shortcircuit_witness :
    evaluate (.mk [] none)
      (.logical (.literal (some (.boolean true))) (tok .Or "or" 1)
        (.literal (some (.num 5))))
      = .ok (some (.boolean true), .mk [] none) :=
  (c4_logical_or_only_shortcircuit (.mk [] none) (.mk [] none)
    (.literal (some (.boolean true))) (.literal (some (.num 5)))
    (tok .Or "or" 1) (.boolean true) rfl).1 rfl rfl

/-- C5: the claim says unary `-` on a non-Number operand fails with a type
error.  The code's `check_number_and_operand` is only reached in the
`Number` branch (where it cannot fail); a non-Number operand falls to the
catch-all arm and evaluation succeeds with `Nil`.  A Number operand is
negated as the claim says. -/
theorem c5_unary_minus_nonnumber_nil :
    evaluate (.mk [] none) (.unary (tok .Minus "-" 3) (.literal (some (.str "a"))))
      = .ok (some .nil, .mk [] none) ∧
    evaluate (.mk [] none) (.unary (tok .Minus "-" 3) (.literal (some (.num 5))))
      = .ok (some (.num (-5)), .mk [] none) :=
  ⟨rfl, rfl⟩

/-- C6: `Environment::assign` mutates the binding in the innermost scope of
the chain that already contains the name — every scope nearer than it lacks
the name, that scope's binding becomes the assigned value while its other
bindings and every other scope of the chain are unchanged — and when no
scope contains the name it fails with the undefined-variable runtime error
carrying the token's source line (returning no environment, so no scope
gains a binding). -/
theorem c6_assign_innermost (env : Environment) (name : Token) (v : Option Value) :
    (env.containsAnywhere name.lexeme = false →
      env.assign name v
        = .error (.runtimeError name.line ("Undefined variable " ++ name.lexeme ++ " ."))) ∧
    (env.containsAnywhere name.lexeme = true →
      ∃ env' : Environment, ∃ i : Nat,
        env.assign name v = .ok env' ∧
        env'.scopes.length = env.scopes.length ∧
        (∀ j : Nat, j < i →
          ∃ s : Scope, env.scopes[j]? = some s ∧ s.lookup name.lexeme = none) ∧
        (∃ s s' : Scope, env.scopes[i]? = some s ∧ (s.lookup name.lexeme).isSome = true ∧
          env'.scopes[i]? = some s' ∧ s'.lookup name.lexeme = some v ∧
          (∀ m, m ≠ name.lexeme → s'.lookup m = s.lookup m)) ∧
        (∀ j : Nat, j ≠ i → env'.scopes[j]? = env.scopes[j]?)) :=
  ⟨assign_not_found env name v, assign_found env name v⟩

theorem c6_assign_innermost_witness :
    Environment.containsAnywhere (.mk [("y", none)] none) "x" = false ∧
    Environment.assign (.mk [("y", none)] none) (tok .Identifier "x" 4) (some (.num 9))
      = .error (.runtimeError 4 "Undefined variable x .") :=
  ⟨by decide,
    (c6_assign_innermost (.mk [("y", none)] none) (tok .Identifier "x" 4)
      (some (.num 9))).1 (by decide)⟩

/-- C7: `==` and `!=` succeed on operands of any value kinds: `==` yields
structural value equality (`Nil == Nil` is true, values of different kinds
compare unequal), `!=` its negation, and `is_equal` on two absent results
is false. -/
theorem c7_equality_structural (a b : Value) (env : Environment) (lx : String)
    (ln : Nat) (lit : Option Value) :
    evaluate env (.binary (.literal (some a)) ⟨.EqualEqual, lx, lit, ln⟩ (.literal (some b)))
      = .ok (some (.boolean (decide (a = b))), env) ∧
    evaluate env (.binary (.literal (some a)) ⟨.BangEqual, lx, lit, ln⟩ (.literal (some b)))
      = .ok (some (.boolean (!decide (a = b))), env) ∧
    is_equal none none = false := by
  have his : is_equal (some a) (some b) = decide (a = b) := by
    by_cases h : a = b
    · subst h
      simp [is_equal]
    · have h1 : (some a == some b) = false := by
        simpa using h
      simp [is_equal, h1, decide_eq_false h]
  refine ⟨?_, ?_, rfl⟩
  · simp [evaluate, unwrapValue, his]
  · simp [evaluate, unwrapValue, his]

/-- C8: for `-`, `/`, `*`, `>`, `>=`, `<`, `<=`: when both operands are
Numbers the operation succeeds with the arithmetic result (a Boolean for
the comparisons, per `numericResult`); when either operand is not a
Number, evaluation fails with the runtime type error
"Operands must be numbers" carrying the operator token's line. -/
theorem c8_numeric_operators (env : Environment) (lx : String) (ln : Nat)
    (lit : Option Value) (t : TokenType) (a b : Value)
    (hop : t = .Minus ∨ t = .Slash ∨ t = .Star ∨ t = .Greater ∨
      t = .GreaterEqual ∨ t = .Less ∨ t = .LessEqual) :
    (∀ x y : ℚ, a = .num x → b = .num y →
      evaluate env (.binary (.literal (some a)) ⟨t, lx, lit, ln⟩ (.literal (some b)))
        = .ok (numericResult t x y, env)) ∧
    (a.isNum = false ∨ b.isNum = false →
      evaluate env (.binary (.literal (some a)) ⟨t, lx, lit, ln⟩ (.literal (some b)))
        = .error (.runtimeError ln "Operands must be numbers")) := by
  constructor
  · rintro x y rfl rfl
    rcases hop with rfl | rfl | rfl | rfl | rfl | rfl | rfl <;> rfl
  · intro hab
    rcases hop with rfl | rfl | rfl | rfl | rfl | rfl | rfl <;>
      cases a <;> cases b <;>
        first
          | rfl
          | (rcases hab with hab | hab <;> simp [Value.isNum] at hab)

theorem c8_numeric_operators_witness :
    evaluate (.mk [] none)
      (.binary (.literal (some (.num 2))) ⟨.Minus, "-", none, 5⟩ (.literal (some (.str "a"))))
      = .error (.runtimeError 5 "Operands must be numbers") :=
  (c8_numeric_operators (.mk [] none) "-" 5 none .Minus (.num 2) (.str "a")
    (Or.inl rfl)).2 (Or.inr rfl)

/-- C9: whenever a sub-expression that must yield a present value — an
operand of a binary expression, the argument of `print`, the condition of
`if` or `while` — evaluates successfully to the absent marker, the
interpreter fails (the source's `.unwrap()` panics, modelled as
`Failure.panic`) instead of substituting a default and returning a success
result. -/
theorem c9_absent_value_fails :
    (∀ (env env1 : Environment) (l r : Expr) (op : Token),
      evaluate env l = .ok (none, env1) →
      evaluate env (.binary l op r) = .error .panic) ∧
    (∀ (env env1 env2 : Environment) (l r : Expr) (op : Token) (lv : Value),
      evaluate env l = .ok (some lv, env1) → evaluate env1 r = .ok (none, env2) →
      evaluate env (.binary l op r) = .error .panic) ∧
    (∀ (st : InterpState) (env1 : Environment) (e : Expr) (repl : Bool) (fuel : Nat),
      evaluate st.env e = .ok (none, env1) →
      execute repl (fuel + 1) (.print e) st = .error .panic) ∧
    (∀ (st : InterpState) (env1 : Environment) (e : Expr) (repl : Bool) (fuel : Nat)
      (tb : Stmt) (eb : Option Stmt),
      evaluate st.env e = .ok (none, env1) →
      execute repl (fuel + 1) (.ifStmt e tb eb) st = .error .panic) ∧
    (∀ (st : InterpState) (env1 : Environment) (e : Expr) (repl : Bool) (fuel : Nat)
      (body : Stmt),
      evaluate st.env e = .ok (none, env1) →
      execute repl (fuel + 1) (.whileStmt e body) st = .error .panic) := by
  refine ⟨?_, ?_, ?_, ?_, ?_⟩
  · intro env env1 l r op h
    simp [evaluate, h, unwrapValue]
  · intro env env1 env2 l r op lv h1 h2
    simp [evaluate, h1, h2, unwrapValue]
  · intro st env1 e repl fuel h
    simp [execute, h, unwrapValue]
  · intro st env1 e repl fuel tb eb h
    simp [execute, h, unwrapValue]
  · intro st env1 e repl fuel body h
    simp [execute, h, unwrapValue]

theorem c9_absent_value_fails_witness :
    evaluate (.mk [("x", none)] none) (.variable (tok .Identifier "x" 1))
      = .ok (none, .mk [("x", none)] none) ∧
    evaluate (.mk [("x", none)] none)
      (.binary (.variable (tok .Identifier "x" 1)) (tok .Plus "+" 1)
        (.literal (some (.num 1))))
      = .error .panic :=
  ⟨rfl,
    c9_absent_value_fails.1 (.mk [("x", none)] none) (.mk [("x", none)] none)
      (.variable (tok .Identifier "x" 1)) (.literal (some (.num 1))) (tok .Plus "+" 1) rfl⟩

/-- C10: the claim says that in repl mode an expression statement's value
is surfaced back to the caller.  The source's repl branch binds the value
in an empty `if let` body and returns `Ok(())`, exactly like the non-repl
branch: on `1;` in repl mode execution succeeds with the state unchanged
and no value anywhere in the result, identical to non-repl mode. -/
theorem c10_expression_stmt_discards :
    execute true 2 (.expression (.literal (some (.num 1)))) { env := .mk [] none, output := [] }
      = .ok { env := .mk [] none, output := [] } ∧
    execute true 2 (.expression (.literal (some (.num 1)))) { env := .mk [] none, output := [] }
      = execute false 2 (.expression (.literal (some (.num 1)))) { env := .mk [] none, output := [] } :=
  ⟨rfl, rfl⟩

end Lox
